import Mathlib

/-!
Shallow embedding of the chip8-rust emulator core (src/chip8.rs and
src/disasm.rs) and verification of the specification claims against it.

Machine integers are modelled as `Nat` with explicit reductions
(`% 0x100` for u8, `% 0x10000` for u16) at the points where the Rust
code performs wrapping arithmetic.  Rust slice indexing is
bounds-checked, so array accesses whose index is not provably in range
are modelled as `Option`-returning reads/writes; an out-of-range access
aborts the instruction with the `IndexOutOfBounds` outcome, carrying the
state as mutated so far (a Rust index panic aborts after any earlier
field writes have already happened).
-/

namespace Chip8Emu

/-- Display width in pixels (chip8.rs `DISPLAY_WIDTH`). -/
def DISPLAY_WIDTH : Nat := 64

/-- Display height in pixels (chip8.rs `DISPLAY_HEIGHT`). -/
def DISPLAY_HEIGHT : Nat := 32

/-- Number of cells in the display buffer. -/
def DISPLAY_BUFFER_LENGTH : Nat := DISPLAY_WIDTH * DISPLAY_HEIGHT

/-- Program load address (chip8.rs `ADDR_PROGRAM`). -/
def ADDR_PROGRAM : Nat := 0x200

/-- Character ROM base address (chip8.rs `ADDR_CHARACTER`). -/
def ADDR_CHARACTER : Nat := 0

/-- Bytes per character glyph (chip8.rs `SIZE_CHARACTER`). -/
def SIZE_CHARACTER : Nat := 5

/-- Length of the RAM array: `ram: [u8; 0x1000]`, so `self.ram.len()` is 4096. -/
def RAM_LEN : Nat := 0x1000

/-- The 80-byte hexadecimal glyph font (chip8.rs `CHARACTER_ROM`). -/
def CHARACTER_ROM : List Nat :=
  [0xF0, 0x90, 0x90, 0x90, 0xF0,
   0x20, 0x60, 0x20, 0x20, 0x70,
   0xF0, 0x10, 0xF0, 0x80, 0xF0,
   0xF0, 0x10, 0xF0, 0x10, 0xF0,
   0x90, 0x90, 0xF0, 0x10, 0x10,
   0xF0, 0x80, 0xF0, 0x10, 0xF0,
   0xF0, 0x80, 0xF0, 0x90, 0xF0,
   0xF0, 0x10, 0x20, 0x40, 0x40,
   0xF0, 0x90, 0xF0, 0x90, 0xF0,
   0xF0, 0x90, 0xF0, 0x10, 0xF0,
   0xF0, 0x90, 0xF0, 0x90, 0x90,
   0xE0, 0x90, 0xE0, 0x90, 0xE0,
   0xF0, 0x80, 0x80, 0x80, 0xF0,
   0xE0, 0x90, 0x90, 0x90, 0xE0,
   0xF0, 0x80, 0xF0, 0x80, 0xF0,
   0xF0, 0x80, 0xF0, 0x80, 0x80]

/-- The fixed RNG seed bytes (chip8.rs `RNG_SEED`). -/
def RNG_SEED : List Nat :=
  [0xBA, 0xD5, 0xEE, 0xD5, 0xBA, 0xD5, 0xEE, 0xD5,
   0xBA, 0xD5, 0xEE, 0xD5, 0xBA, 0xD5, 0xEE, 0xD5,
   0xBA, 0xD5, 0xEE, 0xD5, 0xBA, 0xD5, 0xEE, 0xD5,
   0xBA, 0xD5, 0xEE, 0xD5, 0xBA, 0xD5, 0xEE, 0xD5]

/-- Outcome of executing one instruction.  The first three constructors
are the `Chip8Panic` variants of chip8.rs, returned as `Result::Err`
values; `IndexOutOfBounds` models a Rust slice-index panic (an
out-of-bounds `self.v[..]`, `self.stack[..]` or `self.ram[..]` access),
which aborts execution rather than being returned. -/
inductive Fault where
  | StackUnderflow
  | StackOverflow
  | UnknownOpCode
  | IndexOutOfBounds
deriving DecidableEq

/-- Machine state (chip8.rs `struct Chip8`).  Fixed-size Rust arrays are
modelled as functions used on the index range of the array type; `rng`
is the state of the deterministic generator.

Modelled from the spec: `StdRng` comes from the external `rand` crate
(not part of this repository); the spec only requires a deterministic
pseudo-random generator seeded from a fixed constant, so its state is
abstracted to a single `Nat`. -/
structure Chip8 where
  rng : Nat
  v : Nat → Nat
  i : Nat
  vf : Nat
  dt : Nat
  st : Nat
  pc : Nat
  sp : Nat
  stack : Nat → Nat
  ram : Nat → Nat
  display : Nat → Bool
  keys : Nat → Bool

/-- Modelled from the spec: `StdRng::next_u32` of the external `rand`
crate, abstracted to a deterministic stream: the drawn u32 is the low 32
bits of the state and the state advances by a fixed affine map.  No
claim depends on the concrete values drawn. -/
def rng_next_u32 (g : Nat) : Nat × Nat :=
  (g % 0x100000000, (g * 6364136223846793005 + 1442695040888963407) % 0x10000000000000000)

/-- Modelled from the spec: `SeedableRng::from_seed`, abstracted to
packing the seed bytes into the state. -/
def rng_from_seed (seed : List Nat) : Nat :=
  seed.foldr (fun b acc => acc * 0x100 + b) 0

/-- Checked read of the 16-entry register array `self.v[idx]`. -/
def vRead (s : Chip8) (idx : Nat) : Option Nat :=
  if idx < 0x10 then some (s.v idx) else none

/-- Checked write of the 16-entry register array `self.v[idx] = val`. -/
def vWrite (s : Chip8) (idx val : Nat) : Option Chip8 :=
  if idx < 0x10 then
    some { s with v := fun j => if j = idx then val else s.v j }
  else none

/-- Checked read of the 16-entry stack array `self.stack[idx]`. -/
def stackRead (s : Chip8) (idx : Nat) : Option Nat :=
  if idx < 0x10 then some (s.stack idx) else none

/-- Checked write of the 16-entry stack array `self.stack[idx] = val`. -/
def stackWrite (s : Chip8) (idx val : Nat) : Option Chip8 :=
  if idx < 0x10 then
    some { s with stack := fun j => if j = idx then val else s.stack j }
  else none

/-- Checked read of the 4096-byte RAM array `self.ram[idx]`. -/
def ramReadAt (s : Chip8) (idx : Nat) : Option Nat :=
  if idx < RAM_LEN then some (s.ram idx) else none

/-- Checked write of the 4096-byte RAM array `self.ram[idx] = val`. -/
def ramWriteAt (s : Chip8) (idx val : Nat) : Option Chip8 :=
  if idx < RAM_LEN then
    some { s with ram := fun a => if a = idx then val else s.ram a }
  else none

/-- chip8.rs `mem_read_byte`: reduce the address modulo `ram.len()`,
then index RAM (the index is the already-reduced address). -/
def mem_read_byte (s : Chip8) (addr : Nat) : Option Nat :=
  ramReadAt s (addr % RAM_LEN)

/-- chip8.rs `mem_read_opcode`: big-endian 16-bit fetch of two bytes at
`addr` and `addr + 1` (the u16 increment wraps modulo 2^16). -/
def mem_read_opcode (s : Chip8) (addr : Nat) : Option Nat :=
  match mem_read_byte s addr, mem_read_byte s ((addr + 1) % 0x10000) with
  | some msb, some lsb => some (msb <<< 8 ||| lsb)
  | _, _ => none

/-- chip8.rs `disp_coord_to_index`: wrap each coordinate, then
row-major index.  The result is always below `DISPLAY_BUFFER_LENGTH`,
so the subsequent display indexing cannot go out of bounds. -/
def disp_coord_to_index (x y : Nat) : Nat :=
  (y % DISPLAY_HEIGHT) * DISPLAY_WIDTH + (x % DISPLAY_WIDTH)

/-- chip8.rs `disp_toggle_coord`: set the flag field if the pixel was
lit, then toggle it. -/
def disp_toggle_coord (s : Chip8) (x y : Nat) : Chip8 :=
  let idx := disp_coord_to_index x y
  let s1 := if s.display idx then { s with vf := 1 } else s
  { s1 with display := fun j => if j = idx then !s1.display j else s1.display j }

/-- Loop body of chip8.rs `disp_toggle_sprite_row`: `for i in (0..8).rev()`,
so the argument `8` processes bit 7 first, down to bit 0. -/
def disp_toggle_sprite_row_aux (x y sbyte : Nat) : Nat → Chip8 → Chip8
  | 0, s => s
  | n + 1, s =>
    disp_toggle_sprite_row_aux x y sbyte n
      (if (sbyte >>> n) &&& 1 = 1 then disp_toggle_coord s (x + 7 - n) y else s)

/-- chip8.rs `disp_toggle_sprite_row`. -/
def disp_toggle_sprite_row (s : Chip8) (x y sbyte : Nat) : Chip8 :=
  disp_toggle_sprite_row_aux x y sbyte 8 s

/-- The `for dy in 0..nibble` loop of the `Dxyn` arm of `execute_opcode`:
each iteration indexes `self.ram[i + dy]` directly (bounds-checked, no
modulo reduction) and toggles that sprite row.  `dy` is the current row
index, the last argument of the recursion is the number of rows left. -/
def drw_rows (x y iAddr : Nat) : Nat → Nat → Chip8 → Chip8 × Option Fault
  | _, 0, s => (s, none)
  | dy, rows + 1, s =>
    match ramReadAt s (iAddr + dy) with
    | none => (s, some .IndexOutOfBounds)
    | some b => drw_rows x y iAddr (dy + 1) rows (disp_toggle_sprite_row s x (y + dy) b)

/-- The key scan of the `Fx0A` arm:
`keys.iter().enumerate().filter(pressed).next()`. -/
def first_pressed (s : Chip8) : Option Nat :=
  (List.range 0x10).find? (fun k => s.keys k)

/-- chip8.rs `execute_opcode`.  Faithful to the source, including:
`x` is `(opcode & 0x0f00).overflowing_shr(16).0`, and on a u16 the
shift count 16 is masked to 0, so `x` is the unshifted masked value
(up to 0xF00); `y` is `opcode & 0x00f0 >> 8`, which by Rust precedence
is `opcode & (0x00f0 >> 8) = opcode & 0 = 0`; the dispatch is
`opcode.overflowing_shr(24).0`, and on a u16 the shift count 24 is
masked to 8, so dispatch is on the high byte, not the high nibble. -/
def execute_opcode (s : Chip8) (opcode : Nat) : Chip8 × Option Fault :=
  let nnn := opcode &&& 0x0fff
  let x := opcode &&& 0x0f00
  let y := opcode &&& (0x00f0 >>> 8)
  let kk := opcode &&& 0x00ff
  let nibble := opcode &&& 0x000f
  match opcode >>> 8 with
  | 0x0 =>
    if opcode = 0x00E0 then
      ({ s with display := fun _ => false, pc := (s.pc + 2) % 0x10000 }, none)
    else if opcode = 0x00EE then
      if s.sp = 0 then (s, some .StackUnderflow)
      else
        match stackRead s s.sp with
        | none => (s, some .IndexOutOfBounds)
        | some ret => ({ s with pc := (ret + 2) % 0x10000, sp := s.sp - 1 }, none)
    else (s, some .UnknownOpCode)
  | 0x1 =>
    ({ s with pc := nnn }, none)
  | 0x2 =>
    if s.sp ≥ 0xff then (s, some .StackOverflow)
    else
      let s1 := { s with sp := s.sp + 1 }
      match stackWrite s1 s1.sp s.pc with
      | none => (s1, some .IndexOutOfBounds)
      | some s2 => ({ s2 with pc := nnn }, none)
  | 0x3 =>
    match vRead s x with
    | none => (s, some .IndexOutOfBounds)
    | some vx => ({ s with pc := (s.pc + (if vx = kk then 4 else 2)) % 0x10000 }, none)
  | 0x4 =>
    match vRead s x with
    | none => (s, some .IndexOutOfBounds)
    | some vx => ({ s with pc := (s.pc + (if vx ≠ kk then 4 else 2)) % 0x10000 }, none)
  | 0x5 =>
    if nibble = 0 then
      match vRead s x, vRead s y with
      | some vx, some vy =>
        ({ s with pc := (s.pc + (if vx = vy then 4 else 2)) % 0x10000 }, none)
      | _, _ => (s, some .IndexOutOfBounds)
    else (s, some .UnknownOpCode)
  | 0x6 =>
    match vWrite s x kk with
    | none => (s, some .IndexOutOfBounds)
    | some s1 => ({ s1 with pc := (s1.pc + 2) % 0x10000 }, none)
  | 0x7 =>
    match vRead s x with
    | none => (s, some .IndexOutOfBounds)
    | some vx =>
      match vWrite s x ((vx + kk) % 0x100) with
      | none => (s, some .IndexOutOfBounds)
      | some s1 => ({ s1 with pc := (s1.pc + 2) % 0x10000 }, none)
  | 0x8 =>
    match nibble with
    | 0x0 =>
      match vRead s y with
      | none => (s, some .IndexOutOfBounds)
      | some vy =>
        match vWrite s x vy with
        | none => (s, some .IndexOutOfBounds)
        | some s1 => ({ s1 with pc := (s1.pc + 2) % 0x10000 }, none)
    | 0x1 =>
      match vRead s x, vRead s y with
      | some vx, some vy =>
        match vWrite s x (vx ||| vy) with
        | none => (s, some .IndexOutOfBounds)
        | some s1 => ({ s1 with pc := (s1.pc + 2) % 0x10000 }, none)
      | _, _ => (s, some .IndexOutOfBounds)
    | 0x2 =>
      match vRead s y with
      | none => (s, some .IndexOutOfBounds)
      | some vy =>
        match vWrite s x (vy &&& vy) with
        | none => (s, some .IndexOutOfBounds)
        | some s1 => ({ s1 with pc := (s1.pc + 2) % 0x10000 }, none)
    | 0x3 =>
      match vRead s y with
      | none => (s, some .IndexOutOfBounds)
      | some vy =>
        match vWrite s x (vy ^^^ vy) with
        | none => (s, some .IndexOutOfBounds)
        | some s1 => ({ s1 with pc := (s1.pc + 2) % 0x10000 }, none)
    | 0x4 =>
      match vRead s x, vRead s y with
      | some vx, some vy =>
        let sum := vx + vy
        let s1 := { s with vf := if sum > 0xff then 1 else 0 }
        match vWrite s1 x (sum &&& 0xff) with
        | none => (s1, some .IndexOutOfBounds)
        | some s2 => ({ s2 with pc := (s2.pc + 2) % 0x10000 }, none)
      | _, _ => (s, some .IndexOutOfBounds)
    | 0x5 =>
      match vRead s x, vRead s y with
      | some vx, some vy =>
        let s1 := { s with vf := if vx > vy then 1 else 0 }
        match vWrite s1 x ((vx + 0x100 - vy) % 0x100) with
        | none => (s1, some .IndexOutOfBounds)
        | some s2 => ({ s2 with pc := (s2.pc + 2) % 0x10000 }, none)
      | _, _ => (s, some .IndexOutOfBounds)
    | 0x6 =>
      match vRead s x with
      | none => (s, some .IndexOutOfBounds)
      | some vx =>
        let s1 := { s with vf := vx &&& 1 }
        match vWrite s1 x (vx >>> 1) with
        | none => (s1, some .IndexOutOfBounds)
        | some s2 => ({ s2 with pc := (s2.pc + 2) % 0x10000 }, none)
    | 0x7 =>
      match vRead s x, vRead s y with
      | some vx, some vy =>
        let s1 := { s with vf := if vy > vx then 1 else 0 }
        match vWrite s1 x ((vy + 0x100 - vx) % 0x100) with
        | none => (s1, some .IndexOutOfBounds)
        | some s2 => ({ s2 with pc := (s2.pc + 2) % 0x10000 }, none)
      | _, _ => (s, some .IndexOutOfBounds)
    | 0xE =>
      match vRead s x with
      | none => (s, some .IndexOutOfBounds)
      | some vx =>
        let s1 := { s with vf := vx &&& (0x80 >>> 7) }
        match vWrite s1 x ((vx <<< 1) % 0x100) with
        | none => (s1, some .IndexOutOfBounds)
        | some s2 => ({ s2 with pc := (s2.pc + 2) % 0x10000 }, none)
    | _ => (s, some .UnknownOpCode)
  | 0x9 =>
    if nibble = 0 then
      match vRead s x, vRead s y with
      | some vx, some vy =>
        ({ s with pc := (s.pc + (if vx ≠ vy then 4 else 2)) % 0x10000 }, none)
      | _, _ => (s, some .IndexOutOfBounds)
    else (s, some .UnknownOpCode)
  | 0xA =>
    ({ s with i := nnn, pc := (s.pc + 2) % 0x10000 }, none)
  | 0xB =>
    ({ s with pc := s.v 0 + nnn }, none)
  | 0xC =>
    let r := rng_next_u32 s.rng
    let s1 := { s with rng := r.2 }
    match vWrite s1 x (kk &&& (r.1 &&& 0xff)) with
    | none => (s1, some .IndexOutOfBounds)
    | some s2 => ({ s2 with pc := (s2.pc + 2) % 0x10000 }, none)
  | 0xD =>
    match vRead s x, vRead s y with
    | some vx, some vy =>
      let s1 := { s with vf := 0 }
      match drw_rows vx vy s.i 0 nibble s1 with
      | (s2, some f) => (s2, some f)
      | (s2, none) => ({ s2 with pc := (s2.pc + 2) % 0x10000 }, none)
    | _, _ => (s, some .IndexOutOfBounds)
  | 0xE =>
    match vRead s x with
    | none => (s, some .IndexOutOfBounds)
    | some vx =>
      let key_pressed := s.keys (vx &&& 0xf)
      match kk with
      | 0x9E =>
        ({ s with pc := (s.pc + (if key_pressed then 4 else 2)) % 0x10000 }, none)
      | 0xA1 =>
        ({ s with pc := (s.pc + (if !key_pressed then 4 else 2)) % 0x10000 }, none)
      | _ => (s, some .UnknownOpCode)
  | 0xF =>
    match kk with
    | 0x07 =>
      match vWrite s x s.dt with
      | none => (s, some .IndexOutOfBounds)
      | some s1 => ({ s1 with pc := (s1.pc + 2) % 0x10000 }, none)
    | 0x0A =>
      match first_pressed s with
      | some k =>
        match vWrite s x k with
        | none => (s, some .IndexOutOfBounds)
        | some s1 => ({ s1 with pc := (s1.pc + 2) % 0x10000 }, none)
      | none => (s, none)
    | 0x15 =>
      match vRead s x with
      | none => (s, some .IndexOutOfBounds)
      | some vx => ({ s with dt := vx, pc := (s.pc + 2) % 0x10000 }, none)
    | 0x18 =>
      match vRead s x with
      | none => (s, some .IndexOutOfBounds)
      | some vx => ({ s with st := vx, pc := (s.pc + 2) % 0x10000 }, none)
    | 0x1E =>
      match vRead s x with
      | none => (s, some .IndexOutOfBounds)
      | some vx => ({ s with i := (s.i + vx) % 0x10000, pc := (s.pc + 2) % 0x10000 }, none)
    | 0x29 =>
      match vRead s x with
      | none => (s, some .IndexOutOfBounds)
      | some vx =>
        ({ s with i := ADDR_CHARACTER + SIZE_CHARACTER * (vx &&& 0x0f),
                  pc := (s.pc + 2) % 0x10000 }, none)
    | 0x33 =>
      match vRead s x with
      | none => (s, some .IndexOutOfBounds)
      | some vx =>
        let hundreds := vx / 100 % 10
        let tens := vx / 10 % 10
        let ones := vx / 1 % 10
        match ramWriteAt s s.i hundreds with
        | none => (s, some .IndexOutOfBounds)
        | some s1 =>
          match ramWriteAt s1 (s.i + 1) tens with
          | none => (s1, some .IndexOutOfBounds)
          | some s2 =>
            match ramWriteAt s2 (s.i + 2) ones with
            | none => (s2, some .IndexOutOfBounds)
            | some s3 => ({ s3 with pc := (s3.pc + 2) % 0x10000 }, none)
    | 0x55 =>
      let s1 := (List.range 0x10).foldl
        (fun t di =>
          { t with ram := fun a => if a = (t.i + di) % RAM_LEN then t.v di else t.ram a }) s
      ({ s1 with pc := (s1.pc + 2) % 0x10000 }, none)
    | 0x65 =>
      let s1 := (List.range 0x10).foldl
        (fun t di =>
          { t with v := fun j => if j = di then t.ram ((t.i + di) % RAM_LEN) else t.v j }) s
      ({ s1 with pc := (s1.pc + 2) % 0x10000 }, none)
    | _ => (s, some .UnknownOpCode)
  | _ => (s, some .UnknownOpCode)

/-- chip8.rs `step`: decrement each timer if positive, fetch the opcode
at `pc`, execute it, and only on success clear the key state.  On a
fault the state keeps all mutations made before the fault (the timer
decrements in particular). -/
def step (s : Chip8) : Chip8 × Option Fault :=
  let s1 := if s.dt > 0 then { s with dt := s.dt - 1 } else s
  let s2 := if s1.st > 0 then { s1 with st := s1.st - 1 } else s1
  match mem_read_opcode s2 s2.pc with
  | none => (s2, some .IndexOutOfBounds)
  | some opcode =>
    match execute_opcode s2 opcode with
    | (s3, some f) => (s3, some f)
    | (s3, none) => ({ s3 with keys := fun _ => false }, none)

/-- Sequential byte writes, the loop body of chip8.rs `mem_write_slice`. -/
def write_bytes : (Nat → Nat) → Nat → List Nat → (Nat → Nat)
  | ram, _, [] => ram
  | ram, start, b :: rest => write_bytes (fun a => if a = start then b else ram a) (start + 1) rest

/-- chip8.rs `mem_write_slice`: fails when `start + slice.len() >= ram.len()`
(the boundary is deliberately exclusive of the last byte). -/
def mem_write_slice (s : Chip8) (start : Nat) (slice : List Nat) : Option Chip8 :=
  if start + slice.length ≥ RAM_LEN then none
  else some { s with ram := write_bytes s.ram start slice }

/-- chip8.rs `reset`: re-seed the RNG, zero every field, set `pc` to
`ADDR_PROGRAM`, and write the character ROM at address 0.  The font
write cannot fail (`0 + 80 < 4096`); the fallback branch mirrors the
`.unwrap()` being vacuous. -/
def reset (s : Chip8) : Chip8 :=
  let s1 : Chip8 :=
    { s with
      rng := rng_from_seed RNG_SEED,
      i := 0, vf := 0, dt := 0, st := 0, pc := ADDR_PROGRAM, sp := 0,
      v := fun _ => 0, stack := fun _ => 0,
      display := fun _ => false, keys := fun _ => false,
      ram := fun _ => 0 }
  match mem_write_slice s1 ADDR_CHARACTER CHARACTER_ROM with
  | some s2 => s2
  | none => s1

/-- chip8.rs `Chip8::new`: build a zeroed machine and `reset` it (the
entropy-seeded RNG of `new` is immediately overwritten by the fixed
seed inside `reset`). -/
def chip8_new : Chip8 :=
  reset
    { rng := 0, v := fun _ => 0, i := 0, vf := 0, dt := 0, st := 0, pc := 0, sp := 0,
      stack := fun _ => 0, ram := fun _ => 0,
      display := fun _ => false, keys := fun _ => false }

/-- disasm.rs `split_opcode`: the four nibbles of the two instruction
bytes, most significant first. -/
def split_opcode (hi lo : Nat) : Nat × Nat × Nat × Nat :=
  ((hi &&& 0xf0) >>> 4, hi &&& 0x0f, (lo &&& 0xf0) >>> 4, lo &&& 0x0f)

/-- Upper-case hex digit, modelling the Rust format spec used by the
disassembler on nibble values. -/
def hex_digit (n : Nat) : String :=
  match n with
  | 0x0 => "0" | 0x1 => "1" | 0x2 => "2" | 0x3 => "3"
  | 0x4 => "4" | 0x5 => "5" | 0x6 => "6" | 0x7 => "7"
  | 0x8 => "8" | 0x9 => "9" | 0xA => "A" | 0xB => "B"
  | 0xC => "C" | 0xD => "D" | 0xE => "E" | 0xF => "F"
  | _ => ""

/-- The decode table of disasm.rs `disassemble` (the `match` over
`split_opcode(opcode[0], opcode[1])`, lines 14-51): the mnemonic string
selected for a two-byte instruction; the unmatched pattern yields the
empty string. -/
def disasm_mnemonic (hi lo : Nat) : String :=
  match split_opcode hi lo with
  | (0x0, 0x0, 0xE, 0x0) => "CLS"
  | (0x0, 0x0, 0xE, 0xE) => "RET"
  | (0x0, x, y, z) => "SYS " ++ hex_digit x ++ hex_digit y ++ hex_digit z
  | (0x1, x, y, z) => "JP " ++ hex_digit x ++ hex_digit y ++ hex_digit z
  | (0x2, x, y, z) => "CALL " ++ hex_digit x ++ hex_digit y ++ hex_digit z
  | (0x3, x, y, z) => "SE V" ++ hex_digit x ++ ", " ++ hex_digit y ++ hex_digit z
  | (0x4, x, y, z) => "SNE V" ++ hex_digit x ++ ", " ++ hex_digit y ++ hex_digit z
  | (0x5, x, y, 0x0) => "SE V" ++ hex_digit x ++ ", V" ++ hex_digit y
  | (0x6, x, y, z) => "LD V" ++ hex_digit x ++ ", " ++ hex_digit y ++ hex_digit z
  | (0x7, x, y, z) => "ADD V" ++ hex_digit x ++ ", " ++ hex_digit y ++ hex_digit z
  | (0x8, x, y, 0x0) => "LD V" ++ hex_digit x ++ ", V" ++ hex_digit y
  | (0x8, x, y, 0x1) => "OR V" ++ hex_digit x ++ ", V" ++ hex_digit y
  | (0x8, x, y, 0x2) => "AND V" ++ hex_digit x ++ ", V" ++ hex_digit y
  | (0x8, x, y, 0x3) => "XOR V" ++ hex_digit x ++ ", V" ++ hex_digit y
  | (0x8, x, y, 0x4) => "ADD V" ++ hex_digit x ++ ", V" ++ hex_digit y
  | (0x8, x, y, 0x5) => "SUB V" ++ hex_digit x ++ ", V" ++ hex_digit y
  | (0x8, x, y, 0x6) => "SHR V" ++ hex_digit x ++ " \x7b, V" ++ hex_digit y ++ "\x7d"
  | (0x8, x, y, 0x7) => "SUBN V" ++ hex_digit x ++ ", V" ++ hex_digit y
  | (0x8, x, y, 0xE) => "SHL V" ++ hex_digit x ++ " \x7b, V" ++ hex_digit y ++ "\x7d"
  | (0x9, x, y, 0x0) => "SNE V" ++ hex_digit x ++ ", V" ++ hex_digit y
  | (0xA, x, y, z) => "LD I, " ++ hex_digit x ++ hex_digit y ++ hex_digit z
  | (0xB, x, y, z) => "JP V0, " ++ hex_digit x ++ hex_digit y ++ hex_digit z
  | (0xC, x, y, z) => "RND V" ++ hex_digit x ++ ", " ++ hex_digit y ++ hex_digit z
  | (0xD, x, y, z) => "DRW V" ++ hex_digit x ++ ", V" ++ hex_digit y ++ ", " ++ hex_digit z
  | (0xE, x, 0x9, 0xE) => "SKP V" ++ hex_digit x
  | (0xE, x, 0xA, 0x1) => "SKNP V" ++ hex_digit x
  | (0xF, x, 0x0, 0x7) => "LD V" ++ hex_digit x ++ ", DT"
  | (0xF, x, 0x0, 0xA) => "LD V" ++ hex_digit x ++ ", K"
  | (0xF, x, 0x1, 0x5) => "LD DT, V" ++ hex_digit x
  | (0xF, x, 0x1, 0x8) => "LD ST, V" ++ hex_digit x
  | (0xF, x, 0x1, 0xE) => "ADD I, V" ++ hex_digit x
  | (0xF, x, 0x2, 0x9) => "LD F, V" ++ hex_digit x
  | (0xF, x, 0x3, 0x3) => "LD B, V" ++ hex_digit x
  | (0xF, x, 0x5, 0x5) => "LD [I], V" ++ hex_digit x
  | (0xF, x, 0x6, 0x5) => "LD V" ++ hex_digit x ++ ", [I]"
  | _ => ""

/-- Reset machine with the register values of the spec §8 ADD test:
`V0 = 0xFF`, `V1 = 0x01`. -/
def c1_state : Chip8 :=
  { chip8_new with v := fun j => if j = 0 then 0xFF else if j = 1 then 0x01 else 0 }

/-- Reset machine with `dt = 5`, `st = 3`. -/
def c3_state : Chip8 :=
  { chip8_new with dt := 5, st := 3 }

/-- Reset machine with `dt = 1`. -/
def c4_state : Chip8 :=
  { chip8_new with dt := 1 }

/-- Reset machine with `V1 = 0x0C`, `V2 = 0x0A`. -/
def c5_state : Chip8 :=
  { chip8_new with v := fun j => if j = 1 then 0x0C else if j = 2 then 0x0A else 0 }

/-- Reset machine with `VA = 0xFF`. -/
def c6_state : Chip8 :=
  { chip8_new with v := fun j => if j = 0xA then 0xFF else 0 }

/-- Reset machine with a stack holding 15 return addresses (`sp = 15`). -/
def c7_state : Chip8 :=
  { chip8_new with sp := 15 }

/-- Reset machine with `I = 0x300` and `V0..VF = 1..16`. -/
def c8_state : Chip8 :=
  { chip8_new with i := 0x300, v := fun j => j + 1 }

/-- Reset machine with `I = 0xFFF` (the last RAM address). -/
def c9_state : Chip8 :=
  { chip8_new with i := 0xFFF }

/-- Reset machine with `V1 = 0x81`. -/
def c10_state : Chip8 :=
  { chip8_new with v := fun j => if j = 1 then 0x81 else 0 }

/-- Claim C1: the spec asserts that every flag-producing ALU/draw opcode
writes its flag into the register file slot `V[0xF]` (computed from the
pre-write operands, then overwritten by the destination write).  The
code refutes this: on the spec §8 ADD test (`V0 = 0xFF`, `V1 = 0x01`,
opcode `0x8014`) the interpreter returns UnknownOpCode (its dispatch is
on the high byte) and neither `v[0xF]`, the separate `vf` field, nor
`V0` changes; the high-byte-dispatchable ALU encoding `0x0804` aborts
on the out-of-range register index `x = opcode & 0x0f00 = 0x800`. -/
theorem c1_flag_write_bug :
    (execute_opcode c1_state 0x8014).2 = some Fault.UnknownOpCode ∧
    (execute_opcode c1_state 0x8014).1.v 0xF = 0 ∧
    (execute_opcode c1_state 0x8014).1.vf = 0 ∧
    (execute_opcode c1_state 0x8014).1.v 0 = 0xFF ∧
    (execute_opcode c1_state 0x0804).2 = some Fault.IndexOutOfBounds := by
  decide

/-- Claim C2: the spec asserts the interpreter and the disassembler
classify every 16-bit word identically.  The code refutes this: the
word `0x1234` is an UnknownOpCode fault for the interpreter (which
dispatches on the high byte `0x12`) while the disassembler's table
selects the JP pattern; the word `0x0012` is UnknownOpCode for the
interpreter but the SYS pattern for the disassembler. -/
theorem c2_decoders_disagree :
    (execute_opcode chip8_new 0x1234).2 = some Fault.UnknownOpCode ∧
    disasm_mnemonic 0x12 0x34 = "JP 234" ∧
    (execute_opcode chip8_new 0x0012).2 = some Fault.UnknownOpCode ∧
    disasm_mnemonic 0x00 0x12 = "SYS 012" := by
  decide

/-- Claim C3: the spec asserts `step()` leaves both timers unchanged.
The code refutes this: `step()` decrements each positive timer at its
entry on every call, so from `dt = 5`, `st = 3` one step reaches
`dt = 4`, `st = 2`. -/
theorem c3_timers_decrement_in_step :
    (step c3_state).1.dt = 4 ∧ (step c3_state).1.st = 2 := by
  decide

/-- Claim C4: the spec asserts that when `step()` returns one of the
three faults the whole machine state is exactly as before the call.
The code refutes this: on a freshly reset machine with `dt = 1` the
fetched word `0x0000` yields the UnknownOpCode fault, yet `dt` has
already been decremented from 1 to 0 before decode. -/
theorem c4_fault_mutates_timer :
    (step c4_state).2 = some Fault.UnknownOpCode ∧
    (step c4_state).1.dt = 0 ∧ c4_state.dt = 1 := by
  decide

/-- Claim C5: the spec asserts `8xy2` computes `Vx AND Vy` and `8xy3`
computes `Vx XOR Vy`.  The code refutes this: with `V1 = 0x0C`,
`V2 = 0x0A`, executing `0x8122` returns UnknownOpCode and leaves `V1`
unchanged (the claim requires `V1 = 0x08`), because the dispatch is on
the high byte; the dispatchable encoding `0x0812` aborts on the
out-of-range register index `x = 0x800`. -/
theorem c5_and_xor_bug :
    (execute_opcode c5_state 0x8122).2 = some Fault.UnknownOpCode ∧
    (execute_opcode c5_state 0x8122).1.v 1 = 0x0C ∧
    (execute_opcode c5_state 0x0812).2 = some Fault.IndexOutOfBounds := by
  decide

/-- Claim C6: the spec asserts `7xkk` adds with 8-bit wraparound,
silently.  The code refutes this: with `VA = 0xFF`, executing `0x7A05`
returns UnknownOpCode and leaves `VA = 0xFF` (the claim requires
`VA = 0x04`); the dispatchable encoding `0x0705` aborts on the
out-of-range register index `x = 0x700`. -/
theorem c6_add_imm_bug :
    (execute_opcode c6_state 0x7A05).2 = some Fault.UnknownOpCode ∧
    (execute_opcode c6_state 0x7A05).1.v 0xA = 0xFF ∧
    (execute_opcode c6_state 0x0705).2 = some Fault.IndexOutOfBounds := by
  decide

/-- Claim C7: the spec asserts `2nnn` fails with StackOverflow exactly
on a full 16-deep stack and otherwise pushes without out-of-range
access.  The code refutes this: on a reset machine, `0x2345` returns
UnknownOpCode without pushing (only `0x02nn` words reach the CALL arm),
and with `sp = 15` (not full per the overflow check `sp >= 0xff`) the
CALL arm increments `sp` to 16 and indexes `stack[16]`, an out-of-range
access, instead of returning StackOverflow. -/
theorem c7_call_overflow_bug :
    (execute_opcode chip8_new 0x2345).2 = some Fault.UnknownOpCode ∧
    (execute_opcode chip8_new 0x2345).1.pc = 0x200 ∧
    (execute_opcode c7_state 0x0212).2 = some Fault.IndexOutOfBounds ∧
    (execute_opcode c7_state 0x0212).1.sp = 16 := by
  decide

/-- Claim C8: the spec asserts `Fx55` writes exactly `V0..Vx` to
`I..I+x`.  The code refutes this: with `I = 0x300` and registers
`1..16`, executing `0xF255` (x = 2) returns UnknownOpCode and writes
nothing (the dispatch is on the high byte `0xF2`); the dispatchable
encoding `0x0F55` runs the store loop over all 16 registers regardless
of any x, writing `ram[0x30F] = V15 = 0x10`. -/
theorem c8_store_load_bug :
    (execute_opcode c8_state 0xF255).2 = some Fault.UnknownOpCode ∧
    (execute_opcode c8_state 0xF255).1.ram 0x300 = 0 ∧
    (execute_opcode c8_state 0x0F55).1.ram 0x30F = 0x10 := by
  decide

/-- Claim C9 counterexample: the spec asserts the sprite-row reads of a
`Dxyn` draw reduce their addresses modulo 4096 and never fail.  The
code refutes this: the draw loop indexes `ram[i + dy]` directly, so
from `I = 0xFFF` the second row read indexes `ram[0x1000]` out of range
instead of wrapping to `ram[0]`; moreover executing the draw word
`0x0D02` aborts immediately on the out-of-range register index
`x = 0xD00`, before any row is read. -/
theorem c9_sprite_reads_do_not_wrap :
    (drw_rows 0 0 0xFFF 0 2 chip8_new).2 = some Fault.IndexOutOfBounds ∧
    (execute_opcode c9_state 0x0D02).2 = some Fault.IndexOutOfBounds := by
  decide

/-- Claim C9 as amended: the dedicated accessors do wrap — for every
state and every address, `mem_read_byte` reduces the address modulo
the memory size and returns the byte of valid memory there, and the
big-endian fetch `mem_read_opcode` likewise never fails. -/
theorem c9_mem_reads_always_wrap (s : Chip8) (addr : Nat) :
    mem_read_byte s addr = some (s.ram (addr % RAM_LEN)) ∧
    mem_read_opcode s addr =
      some (s.ram (addr % RAM_LEN) <<< 8 ||| s.ram ((addr + 1) % 0x10000 % RAM_LEN)) := by
  have h : ∀ a : Nat, mem_read_byte s a = some (s.ram (a % RAM_LEN)) := by
    intro a
    have ha : a % RAM_LEN < RAM_LEN := Nat.mod_lt _ (by norm_num [RAM_LEN])
    simp [mem_read_byte, ramReadAt, ha]
  refine ⟨h addr, ?_⟩
  unfold mem_read_opcode
  rw [h addr, h ((addr + 1) % 0x10000)]

/-- Claim C10: the spec asserts `8xy6`/`8xyE` shift `Vx` in place with
the shifted-out bit captured into the flag.  The code refutes this:
with `V1 = 0x81`, executing `0x8106` returns UnknownOpCode and leaves
`V1 = 0x81` (the claim requires `V1 = 0x40` with flag 1), because the
dispatch is on the high byte; the dispatchable encodings `0x0806` and
`0x080E` abort on the out-of-range register index `x = 0x800`. -/
theorem c10_shift_bug :
    (execute_opcode c10_state 0x8106).2 = some Fault.UnknownOpCode ∧
    (execute_opcode c10_state 0x8106).1.v 1 = 0x81 ∧
    (execute_opcode c10_state 0x0806).2 = some Fault.IndexOutOfBounds ∧
    (execute_opcode c10_state 0x080E).2 = some Fault.IndexOutOfBounds := by
  decide

end Chip8Emu
